import Mathlib

/-!
Verification of the trex load-filter-write pipeline.

The definitions below are shallow embeddings of the Python code in
`src/trex/utils/data_sources.py`, `src/trex/utils/io.py` and
`src/trex/utils/auth.py`:

* Python dictionaries (insertion-ordered) become association lists.
* Python strings become `String`; the `in` substring test and `endswith`
  are modelled on the character lists.
* Fallible code (`raise` / `KeyError` / `ValueError` / `TypeError`)
  becomes `Except`.
* The external libraries the code drives (uproot iteration, pandas
  concatenation) are modelled by their documented behaviour on an
  abstract row list: `uproot.iterate` yields the rows in fixed-size
  chunks with the cut applied per chunk, `entry_stop` limits the rows
  scanned, and `pd.concat` of an empty list raises a `ValueError`
  (message "No objects to concatenate").
* The CPython floating-point expression `round(tevs / bevs + 0.5)` is
  modelled over `ℚ` with `round` given the documented round-half-to-even
  semantics.
-/

namespace Trex

/-! ## String helpers (Python `in` and `endswith` on `str`) -/

/-- Character-list test that `pat` starts the list `s` (used to build the
Python substring test). -/
def leadMatch : List Char → List Char → Bool
  | [], _ => true
  | _ :: _, [] => false
  | a :: as, b :: bs => a == b && leadMatch as bs

/-- Character-list substring test: does `sub` occur contiguously in `s`? -/
def subOccurs (sub : List Char) : List Char → Bool
  | [] => sub.isEmpty
  | c :: rest => leadMatch sub (c :: rest) || subOccurs sub rest

/-- Python `sub in s` on strings: case-sensitive contiguous substring test. -/
def pyIn (sub s : String) : Bool := subOccurs sub.data s.data

/-- Python `s.endswith(suf)`. -/
def pyEndsWith (s suf : String) : Bool := leadMatch suf.data.reverse s.data.reverse

/-! ## Selection Resolver
`DataSource.parse_data_selection`, `DataSource.parse_mc_selection` and
`DataSource.get_read_params` from `src/trex/utils/data_sources.py`.
A YAML `selection` mapping becomes an association list in insertion order. -/

/-- Embedding of `DataSource.parse_data_selection`: join with " & " the
expressions of every rule whose name is not `truth_matching`, in insertion
order (`" & ".join([v for k, v in selection.items() if k != "truth_matching"])`). -/
def parse_data_selection (selection : List (String × String)) : String :=
  String.intercalate " & " ((selection.filter fun kv => kv.1 ≠ "truth_matching").map Prod.snd)

/-- Embedding of `DataSource.parse_mc_selection`: join all rule expressions
with " & " in insertion order. -/
def parse_mc_selection (selection : List (String × String)) : String :=
  String.intercalate " & " (selection.map Prod.snd)

/-- Channel configuration fields read by `get_read_params` via
`channel_config.get(...)`; `none` models an absent YAML key. -/
structure ChannelConfig where
  key : Option String
  tree : Option String
  boi : Option (List String)
  selection : Option (List (String × String))

/-- Resolved read parameters returned by `get_read_params`. -/
structure ReadParams where
  key : String
  tree : String
  boi : List String
  sel : String
deriving DecidableEq

/-- Embedding of `DataSource.get_read_params`. Python falsiness of
`channel_config.get(x)` covers both an absent key (`None`) and an empty
value, so the guard `if not key or not tree or not boi or not sel` is the
match on the options plus the emptiness tests. For `"data"` the branches
containing `"TRUEID"` or `"BKGCAT"` are dropped and the truth-matching rule
is omitted from the cut; for `"mc"` everything is kept; any other data type
is a `ValueError`. -/
def get_read_params (cc : ChannelConfig) (data_type : String) : Except String ReadParams :=
  match cc.key, cc.tree, cc.boi, cc.selection with
  | some key, some tree, some boi, some sel =>
    if key = "" ∨ tree = "" ∨ boi.isEmpty ∨ sel.isEmpty then
      .error "Missing necessary parameters in the channel configuration."
    else if data_type = "data" then
      .ok ⟨key, tree, boi.filter (fun c => !(pyIn "TRUEID" c) && !(pyIn "BKGCAT" c)),
           parse_data_selection sel⟩
    else if data_type = "mc" then
      .ok ⟨key, tree, boi, parse_mc_selection sel⟩
    else
      .error ("Invalid data type: " ++ data_type ++ " provided to get_read_params")
  | _, _, _, _ => .error "Missing necessary parameters in the channel configuration."

/-! ## Dataset Locator
`DataSource.get_file` reads `self.file_map[year][data_type][magpol]` and
re-raises the `KeyError` (which names the missing key). The JSON file map
becomes nested association lists, nested in the fixed order
year → data type → polarity. -/

/-- JSON file index: year → data type → magnet polarity → file path. -/
def FileMap := List (String × List (String × List (String × String)))

/-- Embedding of `DataSource.get_file`: the nested dictionary lookup
`file_map[year][data_type][magpol]`; a miss at any level is the `KeyError`
carrying that missing key. -/
def get_file (fm : FileMap) (year magpol data_type : String) : Except String String :=
  match List.lookup year fm with
  | none => .error year
  | some byType =>
    match List.lookup data_type byType with
    | none => .error data_type
    | some byPol =>
      match List.lookup magpol byPol with
      | none => .error magpol
      | some path => .ok path

/-- Specification-side reading of the FileIndex: the mapped path of a
coordinate under the fixed nesting year → data type → polarity, when every
level is present. -/
def indexedPath (fm : FileMap) (year data_type magpol : String) : Option String :=
  (List.lookup year fm).bind fun byType =>
    (List.lookup data_type byType).bind fun byPol => List.lookup magpol byPol

/-! ## Python call binding for `load_root`
`DataSource.load_root_file` calls
`load_root(ntuple_file, key=key, tree=tree, branches=boi, cut=sel,
max_events=max_events, **kwargs)` while `load_root` in
`src/trex/utils/io.py` is declared
`load_root(file_path, library, key=None, tree_name=None, branches=None,
cut=None, name=None, max_entries=None, batch_size="200 MB", **kwargs)`.
CPython binds the call before the body runs: a duplicate binding of a
positional parameter raises `TypeError` first, then any required parameter
left unbound raises `TypeError`; all keywords matching no named parameter
are collected into `**kwargs`. -/

/-- Named parameters of `load_root` in declaration order, paired with
whether the parameter has a default value. -/
def load_root_sig : List (String × Bool) :=
  [("file_path", false), ("library", false), ("key", true), ("tree_name", true),
   ("branches", true), ("cut", true), ("name", true), ("max_entries", true),
   ("batch_size", true)]

/-- Outcome of CPython argument binding: a `TypeError` or the bound call. -/
inductive BindResult where
  /-- TypeError: a parameter received both a positional and a keyword value. -/
  | multipleValues (param : String)
  /-- TypeError: required parameters left without a value. -/
  | missingRequired (params : List String)
  /-- Binding succeeded; the listed keywords fell through to `**kwargs`. -/
  | bound (extraKwargs : List String)
deriving DecidableEq

/-- Membership of a name in a keyword list, as the boolean CPython test. -/
def kwHas (kw : List String) (n : String) : Bool := kw.any fun k => k == n

/-- CPython binding of a call with `npos` positional arguments and keyword
argument names `kw` against a signature that ends in `**kwargs`. -/
def bindCall (sig : List (String × Bool)) (npos : ℕ) (kw : List String) : BindResult :=
  match ((sig.take npos).filter fun p => kwHas kw p.1).map Prod.fst with
  | dup :: _ => .multipleValues dup
  | [] =>
    match ((sig.drop npos).filter fun p => !p.2 && !kwHas kw p.1).map Prod.fst with
    | [] => .bound (kw.filter fun k => !kwHas (sig.map Prod.fst) k)
    | missing => .missingRequired missing

/-- Keyword-argument names of the `load_root(...)` call inside
`DataSource.load_root_file`, followed by the names forwarded from the
caller through `**kwargs`. -/
def load_root_call_kw (extra : List String) : List String :=
  ["key", "tree", "branches", "cut", "max_events"] ++ extra

/-- Observable outcome of one `DataSource.load_root_file` call, stopping at
the first point the real code would raise; `opened` marks reaching the
`uproot.open` call at the top of `load_root`. -/
inductive LoadOutcome where
  /-- KeyError from `get_file` naming the missing map key. -/
  | keyError (key : String)
  /-- ValueError from `get_read_params`. -/
  | configError (msg : String)
  /-- TypeError while binding the `load_root` call. -/
  | typeError (r : BindResult)
  /-- The source container open step of `load_root` was reached. -/
  | opened (path : String)
deriving DecidableEq

/-- Embedding of `DataSource.load_root_file`: fetch the file path, resolve
the read parameters, then call `load_root`; the call itself must bind
before the body of `load_root` (and hence `uproot.open`) can run. -/
def load_root_file (fm : FileMap) (cc : ChannelConfig)
    (year magpol data_type : String) (extraKw : List String) : LoadOutcome :=
  match get_file fm year magpol data_type with
  | .error k => .keyError k
  | .ok path =>
    match get_read_params cc data_type with
    | .error m => .configError m
    | .ok _ =>
      match bindCall load_root_sig 1 (load_root_call_kw extraKw) with
      | .bound _ => .opened path
      | r => .typeError r

/-! ## Orchestrator loop
`DataWritingMixin.write_multiple_files_from_config` iterates the years and
magnet polarities from the configuration; each iteration body is wrapped in
`try/except Exception`, so any failure is logged and the loop continues.
The body (load, check the output directory, write) performs I/O, so the
load and write collaborators are passed as functions returning `Except`. -/

/-- Record of one loop iteration: the coordinate attempted and whether its
body succeeded (`false` means the failure was logged and the loop moved
on). -/
structure CoordAttempt where
  year : String
  magpol : String
  succeeded : Bool
deriving DecidableEq

/-- Body of one iteration of `write_multiple_files_from_config`: load the
ntuple data, fail with the `ValueError` if no output directory is
configured, then write to `{output_dir}/{channel}_{data_type}_{magpol}_{year}.root`. -/
def write_coord_body {ρ : Type} (output_dir : Option String) (channel data_type : String)
    (load : String → String → Except String (List ρ))
    (writeFile : String → List ρ → Except String Unit)
    (year magpol : String) : Except String Unit := do
  let ntuple_data ← load year magpol
  match output_dir with
  | none => Except.error "Output directory not specified in the configuration."
  | some od =>
    writeFile (od ++ "/" ++ channel ++ "_" ++ data_type ++ "_" ++ magpol ++ "_" ++ year
      ++ ".root") ntuple_data

/-- One iteration with its `try/except`: any error from the body is caught
and recorded, never propagated. -/
def attempt_coord (body : String → String → Except String Unit)
    (year magpol : String) : CoordAttempt :=
  match body year magpol with
  | .ok _ => ⟨year, magpol, true⟩
  | .error _ => ⟨year, magpol, false⟩

/-- Embedding of the loop of `write_multiple_files_from_config` (and of the
identically shaped loop in `load_multiple_configs_from_config`): if either
list is empty the method logs an error and returns; otherwise it attempts
every (year, magpol) pair in order, each under its own `try/except`. -/
def write_multiple_files_from_config (years magpols : List String)
    (body : String → String → Except String Unit) : List CoordAttempt :=
  if years.isEmpty ∨ magpols.isEmpty then []
  else years.flatMap fun y => magpols.map fun m => attempt_coord body y m

/-! ## Authentication
`kinit` in `src/trex/utils/auth.py` and `EosDataSource.authenticate`.
`kinit` runs the external process inside `try/except`, checks
`process.returncode` and only prints; it returns `None` in every case, so
no failure ever propagates out of it. The external process outcome is a
parameter. -/

/-- Outcome of the external `kinit` subprocess. -/
structure KinitRun where
  returncode : Int
  stderr : String

/-- Username normalization at the top of `kinit`. -/
def kinit_username (username : String) : String :=
  if pyEndsWith username "@CERN.CH" then username else username ++ "@CERN.CH"

/-- Embedding of `kinit`: always returns normally (`.ok`), carrying the
messages it prints; a non-zero returncode only changes the printed
message. -/
def kinit (run : KinitRun) (username : String) : Except String (List String) :=
  .ok (if run.returncode == 0 then
        ["Successfully authenticated as " ++ kinit_username username ++ "."]
      else
        ["Authentication failed: " ++ run.stderr])

/-- Embedding of `EosDataSource.authenticate`: raise the `ValueError` when
`user_id` is missing or empty (Python falsiness), otherwise call `kinit`. -/
def authenticate (user_id : Option String) (run : KinitRun) : Except String (List String) :=
  match user_id with
  | none => .error "User ID not specified in the configuration."
  | some uid =>
    if uid = "" then .error "User ID not specified in the configuration."
    else kinit run uid

/-- Outcome of constructing an `EosDataSource` (which authenticates) and
then loading one coordinate. -/
inductive EosOutcome where
  /-- The `ValueError` raised by `authenticate` before any read. -/
  | authError (msg : String)
  /-- Authentication returned; the load path ran with this outcome. -/
  | load (r : LoadOutcome)
deriving DecidableEq

/-- Embedding of the EOS path: `EosDataSource.__init__` authenticates, and
a subsequent `load_root_file` call performs the read. -/
def eos_load_root_file (user_id : Option String) (run : KinitRun) (fm : FileMap)
    (cc : ChannelConfig) (year magpol data_type : String)
    (extraKw : List String) : EosOutcome :=
  match authenticate user_id run with
  | .error m => .authError m
  | .ok _ => .load (load_root_file fm cc year magpol data_type extraKw)

/-! ## Batched Reader
The body of `load_root` in `src/trex/utils/io.py`, past the argument
binding: for `library == "pd"` it iterates the tree with
`events.iterate(..., cut=cut, entry_stop=max_entries, step_size=batch_size)`,
appends each batch to `aggr` and calls `pd.concat(aggr)`; otherwise it
calls `events.arrays(...)` in one shot. Rows of the source tree are an
abstract list; `uproot.iterate` yields the rows in chunks of the estimated
step size with the cut applied to each chunk (a chunk whose rows all fail
the cut is still yielded, empty), `entry_stop` limits the rows scanned,
and `pd.concat` of an empty list raises
`ValueError("No objects to concatenate")`. -/

/-- Rows scanned under an `entry_stop` bound. -/
def opTake (max_entries : Option ℕ) (xs : List α) : List α :=
  match max_entries with
  | none => xs
  | some m => xs.take m

/-- Division of the scanned rows into iteration chunks of `step` rows
(every chunk is nonempty; the last may be shorter). A `step` of `0` or `1`
yields singleton chunks. -/
def chunks (step : ℕ) : List α → List (List α)
  | [] => []
  | x :: xs => (x :: xs.take (step - 1)) :: chunks step (xs.drop (step - 1))
termination_by l => l.length
decreasing_by
  simp only [List.length_drop, List.length_cons]
  omega

/-- Embedding of the body of `load_root`: the pandas branch accumulates
the per-chunk filtered batches and concatenates them (`pd.concat` raising
on an empty accumulator); every other library reads in one shot. -/
def load_root (library : String) (step : ℕ) (cut : α → Bool)
    (max_entries : Option ℕ) (xs : List α) : Except String (List α) :=
  if library = "pd" then
    let aggr := (chunks step (opTake max_entries xs)).map (List.filter cut)
    if aggr.isEmpty then .error "No objects to concatenate"
    else .ok aggr.flatten
  else
    .ok ((opTake max_entries xs).filter cut)

/-- Embedding of `simple_load` in `src/trex/utils/io.py`: one-shot
`events.arrays(..., entry_stop=max_events, cut=cut)`. -/
def simple_load (cut : α → Bool) (max_events : Option ℕ) (xs : List α) : List α :=
  (opTake max_events xs).filter cut

/-- Tail of `DataSource.load_root_file` after the load: an empty result is
only warned about (second component) and the table is returned as-is
(first component), the coordinate counting as processed. -/
def load_root_file_result (year magpol data_type : String)
    (df : List α) : List α × Option String :=
  if df.length > 0 then (df, none)
  else (df, some ("No data loaded for Year: " ++ year ++ ", Magpol: " ++ magpol
    ++ ", Data Type: " ++ data_type))

/-! ## Progress estimate
The pandas path of `load_root` computes
`bevs = events.num_entries_for(batch_size, ...)`, `tevs = events.num_entries`
and `nits = round(tevs / bevs + 0.5)` to drive the progress bar. CPython's
`round` rounds half to even; the float quotient is modelled by the exact
rational. -/

/-- CPython `round` on an exact rational value: nearest integer, halves to
the even neighbour. -/
def pythonRound (x : ℚ) : ℤ :=
  if x - (x.floor : ℚ) < 1/2 then x.floor
  else if 1/2 < x - (x.floor : ℚ) then x.floor + 1
  else if 2 ∣ x.floor then x.floor else x.floor + 1

/-- Embedding of the expected-iteration count of `load_root`:
`nits = round(tevs / bevs + 0.5)`. -/
def nits (tevs bevs : ℕ) : ℤ := pythonRound ((tevs : ℚ) / bevs + 1/2)

/-- Half-to-even rounding of the fraction `a / d` of naturals, expressed in
integer arithmetic; `pythonRound` evaluates to this on such fractions. -/
def halfEvenRoundNat (a d : ℕ) : ℤ :=
  if 2 * (a % d) < d then ((a / d : ℕ) : ℤ)
  else if d < 2 * (a % d) then ((a / d : ℕ) : ℤ) + 1
  else if 2 ∣ a / d then ((a / d : ℕ) : ℤ) else ((a / d : ℕ) : ℤ) + 1

end Trex

open Trex

/-- C2: for data type `"data"` the resolved branch list contains no branch
whose name contains the truth-only markers `"TRUEID"` or `"BKGCAT"`
(case-sensitive substring match, the marker set hardcoded in
`get_read_params`), and for data type `"mc"` (simulation) the resolved
branch list is the configured `boi` list unchanged. -/
theorem c2_truth_branch_filtering (cc : ChannelConfig) (boi : List String)
    (hboi : cc.boi = some boi) :
    (∀ p : ReadParams, get_read_params cc "data" = .ok p →
      ∀ b ∈ p.boi, pyIn "TRUEID" b = false ∧ pyIn "BKGCAT" b = false) ∧
    (∀ p : ReadParams, get_read_params cc "mc" = .ok p → p.boi = boi) := by
  constructor
  · intro p hp b hb
    unfold get_read_params at hp
    rcases hk : cc.key with _ | key <;> rcases ht : cc.tree with _ | tree <;>
      rcases hs : cc.selection with _ | sel <;>
      simp [hk, ht, hboi, hs] at hp
    split at hp
    · exact absurd hp (by simp)
    · simp at hp
      rcases hp with ⟨rfl⟩
      simp only [List.mem_filter] at hb
      have := hb.2
      simp only [Bool.and_eq_true, Bool.not_eq_true'] at this
      exact ⟨this.1, this.2⟩
  · intro p hp
    unfold get_read_params at hp
    rcases hk : cc.key with _ | key <;> rcases ht : cc.tree with _ | tree <;>
      rcases hs : cc.selection with _ | sel <;>
      simp [hk, ht, hboi, hs] at hp
    split at hp
    · exact absurd hp (by simp)
    · simp at hp
      rcases hp with ⟨rfl⟩
      rfl

/-- C2 witness: a concrete channel configuration on which the data branch
list drops the truth branches and the mc branch list is unchanged. -/
theorem c2_truth_branch_filtering_witness :
    (∀ p : ReadParams,
        get_read_params ⟨some "k", some "DecayTree", some ["B_PT", "Mu_TRUEID", "B_BKGCAT"],
          some [("common", "PT>500")]⟩ "data" = .ok p →
        ∀ b ∈ p.boi, pyIn "TRUEID" b = false ∧ pyIn "BKGCAT" b = false) ∧
    (∀ p : ReadParams,
        get_read_params ⟨some "k", some "DecayTree", some ["B_PT", "Mu_TRUEID", "B_BKGCAT"],
          some [("common", "PT>500")]⟩ "mc" = .ok p →
        p.boi = ["B_PT", "Mu_TRUEID", "B_BKGCAT"]) :=
  c2_truth_branch_filtering
    ⟨some "k", some "DecayTree", some ["B_PT", "Mu_TRUEID", "B_BKGCAT"],
      some [("common", "PT>500")]⟩
    ["B_PT", "Mu_TRUEID", "B_BKGCAT"] rfl

/-- C3: the data cut is the " & "-join of all rule expressions except the
rule named `truth_matching`, in insertion order; the mc (simulation) cut is
the " & "-join of all rule expressions; on the specification scenario
`{common: "PT>500", truth_matching: "TRUEID==13"}` the data cut is
`"PT>500"` and the mc cut is `"PT>500 & TRUEID==13"`. -/
theorem c3_cut_expression_resolution :
    (∀ selection : List (String × String),
      parse_data_selection selection =
        String.intercalate " & "
          ((selection.filter fun kv => kv.1 ≠ "truth_matching").map Prod.snd) ∧
      parse_mc_selection selection =
        String.intercalate " & " (selection.map Prod.snd)) ∧
    parse_data_selection [("common", "PT>500"), ("truth_matching", "TRUEID==13")] = "PT>500" ∧
    parse_mc_selection [("common", "PT>500"), ("truth_matching", "TRUEID==13")] =
      "PT>500 & TRUEID==13" :=
  ⟨fun _ => ⟨rfl, rfl⟩, by decide, by decide⟩

/-- C4: a coordinate present at every level of the FileIndex nesting
year → data type → polarity resolves to exactly the mapped path, and a
coordinate missing at some level yields the `KeyError` naming exactly the
first missing dimension, never a path. -/
theorem c4_locator_resolution (fm : FileMap) (year magpol data_type : String) :
    (∀ p, get_file fm year magpol data_type = .ok p ↔
      indexedPath fm year data_type magpol = some p) ∧
    (List.lookup year fm = none → get_file fm year magpol data_type = .error year) ∧
    (∀ byType, List.lookup year fm = some byType → List.lookup data_type byType = none →
      get_file fm year magpol data_type = .error data_type) ∧
    (∀ byType byPol, List.lookup year fm = some byType →
      List.lookup data_type byType = some byPol → List.lookup magpol byPol = none →
      get_file fm year magpol data_type = .error magpol) := by
  refine ⟨fun p => ?_, fun h => ?_, fun byType h1 h2 => ?_, fun byType byPol h1 h2 h3 => ?_⟩
  · unfold get_file indexedPath
    cases h1 : List.lookup year fm with
    | none => simp
    | some byType =>
      cases h2 : List.lookup data_type byType with
      | none => simp [h2]
      | some byPol =>
        cases h3 : List.lookup magpol byPol with
        | none => simp [h2, h3]
        | some path => simp [h2, h3]
  · simp [get_file, h]
  · simp [get_file, h1, h2]
  · simp [get_file, h1, h2, h3]

/-- C4 witness: the specification scenario FileIndex
`{"2018": {"data": {"MU": "f1.root"}}}`; the coordinate (2018, MU, data)
resolves to `f1.root` and the coordinate (2018, MD, data) fails naming
`MD`. -/
theorem c4_locator_resolution_witness :
    get_file [("2018", [("data", [("MU", "f1.root")])])] "2018" "MU" "data" = .ok "f1.root" ∧
    get_file [("2018", [("data", [("MU", "f1.root")])])] "2018" "MD" "data" = .error "MD" :=
  ⟨((c4_locator_resolution [("2018", [("data", [("MU", "f1.root")])])] "2018" "MU" "data").1
      "f1.root").mpr (by decide),
   (c4_locator_resolution [("2018", [("data", [("MU", "f1.root")])])] "2018" "MD" "data").2.2.2
      [("data", [("MU", "f1.root")])] [("MU", "f1.root")] (by decide) (by decide) (by decide)⟩

theorem kwHas_eq_false {kw : List String} {n : String} (h : n ∉ kw) : kwHas kw n = false := by
  simp only [kwHas, List.any_eq_false, beq_iff_eq]
  intro k hk
  exact fun e => h (e ▸ hk)

theorem kwHas_append (a b : List String) (n : String) :
    kwHas (a ++ b) n = (kwHas a n || kwHas b n) := by
  simp [kwHas, List.any_append]

theorem bindCall_load_root_dup {extra : List String}
    (hfp : kwHas (load_root_call_kw extra) "file_path" = true) :
    bindCall load_root_sig 1 (load_root_call_kw extra) = .multipleValues "file_path" := by
  simp [bindCall, load_root_sig, hfp]

theorem bindCall_load_root_missing {extra : List String} (hlib : "library" ∉ extra)
    (hfp : kwHas (load_root_call_kw extra) "file_path" = false) :
    bindCall load_root_sig 1 (load_root_call_kw extra) = .missingRequired ["library"] := by
  have hkwlib : kwHas (load_root_call_kw extra) "library" = false := by
    rw [load_root_call_kw, kwHas_append]
    rw [kwHas_eq_false hlib]
    decide
  simp [bindCall, load_root_sig, hfp, hkwlib]

theorem bindCall_load_root_no_library {extra : List String} (hlib : "library" ∉ extra) :
    bindCall load_root_sig 1 (load_root_call_kw extra) = .multipleValues "file_path" ∨
    bindCall load_root_sig 1 (load_root_call_kw extra) = .missingRequired ["library"] := by
  cases hfp : kwHas (load_root_call_kw extra) "file_path" with
  | true => exact Or.inl (bindCall_load_root_dup hfp)
  | false => exact Or.inr (bindCall_load_root_missing hlib hfp)

/-- C1: for every file map, channel configuration and coordinate, a call to
`DataSource.load_root_file` whose forwarded `**kwargs` do not contain
`library` never reaches the file-open step of `load_root`; when the file
lookup and the parameter resolution succeed (and `file_path` is not also
forwarded) it fails exactly with the `TypeError` for the missing required
parameter `library`; moreover `tree` is not a parameter name of
`load_root`, and even a call that does pass `library` leaves `tree` and
`max_events` in the fall-through `**kwargs` rather than binding `tree_name`
or `max_entries`. -/
theorem c1_missing_library_type_error (fm : FileMap) (cc : ChannelConfig)
    (year magpol data_type : String) (extra : List String)
    (hlib : "library" ∉ extra) :
    (∀ path, load_root_file fm cc year magpol data_type extra ≠ .opened path) ∧
    (∀ path params, get_file fm year magpol data_type = .ok path →
      get_read_params cc data_type = .ok params → "file_path" ∉ extra →
      load_root_file fm cc year magpol data_type extra =
        .typeError (.missingRequired ["library"])) ∧
    "tree" ∉ load_root_sig.map Prod.fst ∧
    bindCall load_root_sig 1 (load_root_call_kw ["library"]) = .bound ["tree", "max_events"] := by
  refine ⟨fun path => ?_, fun path params h1 h2 hfp => ?_, by decide, by decide⟩
  · unfold load_root_file
    cases get_file fm year magpol data_type with
    | error k => simp
    | ok p =>
      cases get_read_params cc data_type with
      | error m => simp
      | ok q =>
        rcases bindCall_load_root_no_library hlib with h | h <;> simp [h]
  · have hkwfp : kwHas (load_root_call_kw extra) "file_path" = false := by
      rw [load_root_call_kw, kwHas_append]
      rw [kwHas_eq_false hfp]
      decide
    unfold load_root_file
    rw [h1, h2, bindCall_load_root_missing hlib hkwfp]

/-- C1 witness: the concrete scenario file map and a fully configured
channel, called with no forwarded keyword arguments. -/
theorem c1_missing_library_type_error_witness :
    (∀ path, load_root_file [("2018", [("data", [("MU", "f1.root")])])]
      ⟨some "k", some "DecayTree", some ["B_PT"], some [("common", "PT>500")]⟩
      "2018" "MU" "data" [] ≠ .opened path) ∧
    (∀ path params,
      get_file [("2018", [("data", [("MU", "f1.root")])])] "2018" "MU" "data" = .ok path →
      get_read_params ⟨some "k", some "DecayTree", some ["B_PT"], some [("common", "PT>500")]⟩
        "data" = .ok params → "file_path" ∉ ([] : List String) →
      load_root_file [("2018", [("data", [("MU", "f1.root")])])]
        ⟨some "k", some "DecayTree", some ["B_PT"], some [("common", "PT>500")]⟩
        "2018" "MU" "data" [] = .typeError (.missingRequired ["library"])) ∧
    "tree" ∉ load_root_sig.map Prod.fst ∧
    bindCall load_root_sig 1 (load_root_call_kw ["library"]) = .bound ["tree", "max_events"] :=
  c1_missing_library_type_error [("2018", [("data", [("MU", "f1.root")])])]
    ⟨some "k", some "DecayTree", some ["B_PT"], some [("common", "PT>500")]⟩
    "2018" "MU" "data" [] (by decide)

/-- C8 counterexample: a channel configuration lacking only the storage
key (tree name, branch list and selection rules all present and nonempty)
still fails `get_read_params` with the configuration `ValueError`, because
the code also requires `key`; the claim said such a channel must not
fail. -/
theorem c8_counterexample_key_required :
    get_read_params ⟨none, some "DecayTree", some ["B_PT"], some [("common", "PT>500")]⟩
      "data" = .error "Missing necessary parameters in the channel configuration." := rfl

/-- C8 amended: `get_read_params` fails with the configuration error when
any of the four keys `key`, `tree`, `boi`, `selection` is absent (the
storage key included, unlike the claim), and succeeds for data types
`"data"` and `"mc"` when all four are present and nonempty. -/
theorem c8_required_keys_amended (cc : ChannelConfig) (key tree : String)
    (boi : List String) (sel : List (String × String)) (data_type : String)
    (hk : cc.key = some key) (ht : cc.tree = some tree) (hb : cc.boi = some boi)
    (hs : cc.selection = some sel)
    (hk0 : key ≠ "") (ht0 : tree ≠ "") (hb0 : boi ≠ []) (hs0 : sel ≠ [])
    (hdt : data_type = "data" ∨ data_type = "mc") :
    (∃ p, get_read_params cc data_type = .ok p) ∧
    (∀ cc2 : ChannelConfig,
      cc2.key = none ∨ cc2.tree = none ∨ cc2.boi = none ∨ cc2.selection = none →
      get_read_params cc2 data_type =
        .error "Missing necessary parameters in the channel configuration.") := by
  constructor
  · simp only [get_read_params, hk, ht, hb, hs]
    have hcond : ¬(key = "" ∨ tree = "" ∨ boi.isEmpty ∨ sel.isEmpty) := by
      simp [hk0, ht0, List.isEmpty_iff, hb0, hs0]
    rw [if_neg hcond]
    rcases hdt with rfl | rfl
    · exact ⟨⟨key, tree, boi.filter (fun c => !(pyIn "TRUEID" c) && !(pyIn "BKGCAT" c)),
        parse_data_selection sel⟩, by rw [if_pos rfl]⟩
    · exact ⟨⟨key, tree, boi, parse_mc_selection sel⟩,
        by rw [if_neg (by decide), if_pos rfl]⟩
  · intro cc2 h2
    rcases hcck : cc2.key with _ | k2 <;> rcases hcct : cc2.tree with _ | t2 <;>
      rcases hccb : cc2.boi with _ | b2 <;> rcases hccs : cc2.selection with _ | s2 <;>
      simp_all [get_read_params]

/-- C8 amended witness: a concrete channel with all four keys present
succeeds, and dropping any single key fails with the configuration
error. -/
theorem c8_required_keys_amended_witness :
    (∃ p, get_read_params ⟨some "k", some "DecayTree", some ["B_PT"],
      some [("common", "PT>500")]⟩ "data" = .ok p) ∧
    (∀ cc2 : ChannelConfig,
      cc2.key = none ∨ cc2.tree = none ∨ cc2.boi = none ∨ cc2.selection = none →
      get_read_params cc2 "data" =
        .error "Missing necessary parameters in the channel configuration.") :=
  c8_required_keys_amended
    ⟨some "k", some "DecayTree", some ["B_PT"], some [("common", "PT>500")]⟩
    "k" "DecayTree" ["B_PT"] [("common", "PT>500")] "data"
    rfl rfl rfl rfl (by decide) (by decide) (by decide) (by decide) (Or.inl rfl)

theorem map_coords_flatMap (body : String → String → Except String Unit)
    (years magpols : List String) :
    ((years.flatMap fun y => magpols.map fun m => attempt_coord body y m).map
      fun a => (a.year, a.magpol)) = years.flatMap fun y => magpols.map fun m => (y, m) := by
  induction years with
  | nil => rfl
  | cons y ys ih =>
    simp only [List.flatMap_cons, List.map_append, ih]
    congr 1
    rw [List.map_map]
    apply List.map_congr_left
    intro m _
    show ((attempt_coord body y m).year, (attempt_coord body y m).magpol) = (y, m)
    unfold attempt_coord
    cases body y m <;> rfl

/-- C9: over a nonempty configured sequence of years and magnet
polarities, the orchestration loop attempts every (year, polarity)
coordinate in order, whatever the per-coordinate body does: a failing
coordinate is recorded with `succeeded = false` and the loop continues to
the very end instead of aborting. -/
theorem c9_partial_failure_policy (years magpols : List String)
    (body : String → String → Except String Unit)
    (hy : years ≠ []) (hm : magpols ≠ []) :
    ((write_multiple_files_from_config years magpols body).map
        fun a => (a.year, a.magpol)) =
      (years.flatMap fun y => magpols.map fun m => (y, m)) ∧
    (∀ y m e, body y m = .error e → attempt_coord body y m = ⟨y, m, false⟩) := by
  constructor
  · unfold write_multiple_files_from_config
    rw [if_neg (by simp [List.isEmpty_iff, hy, hm])]
    exact map_coords_flatMap body years magpols
  · intro y m e he
    unfold attempt_coord
    rw [he]

/-- C9 witness: two years and two polarities with a body that fails on
every coordinate; all four coordinates are still attempted, in order. -/
theorem c9_partial_failure_policy_witness :
    ((write_multiple_files_from_config ["2017", "2018"] ["MU", "MD"]
        fun _ _ => .error "IO error").map fun a => (a.year, a.magpol)) =
      (["2017", "2018"].flatMap fun y => ["MU", "MD"].map fun m => (y, m)) ∧
    (∀ y m e, (fun _ _ => (.error "IO error" : Except String Unit)) y m = .error e →
      attempt_coord (fun _ _ => .error "IO error") y m = ⟨y, m, false⟩) :=
  c9_partial_failure_policy ["2017", "2018"] ["MU", "MD"]
    (fun _ _ => .error "IO error") (by decide) (by decide)

/-- C7 counterexample: a `kinit` subprocess that fails (returncode 1) is
not propagated: the EOS pipeline continues past authentication and reaches
the file-open step of the read (here with `library` forwarded so that the
call binds). The claim said a failed authentication aborts the coordinate
before any read. -/
theorem c7_counterexample_auth_not_propagated :
    (1 : Int) ≠ 0 ∧
    eos_load_root_file (some "blaised") ⟨1, "kinit: Password incorrect"⟩
      [("2018", [("data", [("MU", "f1.root")])])]
      ⟨some "k", some "DecayTree", some ["B_PT"], some [("common", "PT>500")]⟩
      "2018" "MU" "data" ["library"] = .load (.opened "f1.root") :=
  ⟨by decide, by decide⟩

/-- C7 amended: `kinit` always returns normally — a non-zero returncode
only changes the printed message — so a failed external authentication
never aborts the coordinate and the EOS load continues into the read path
for every returncode; only a missing (or empty) `user_id` raises the
`ValueError` before any read. -/
theorem c7_amended_auth_never_propagates (uid : String) (run : KinitRun)
    (fm : FileMap) (cc : ChannelConfig) (year magpol data_type : String)
    (extraKw : List String) (h0 : uid ≠ "") :
    (run.returncode ≠ 0 → kinit run uid = .ok ["Authentication failed: " ++ run.stderr]) ∧
    eos_load_root_file (some uid) run fm cc year magpol data_type extraKw =
      .load (load_root_file fm cc year magpol data_type extraKw) ∧
    authenticate none run = .error "User ID not specified in the configuration." := by
  refine ⟨fun hrc => ?_, ?_, rfl⟩
  · have hb : (run.returncode == 0) = false := beq_eq_false_iff_ne.mpr hrc
    unfold kinit
    rw [hb]
    rfl
  · unfold eos_load_root_file authenticate
    simp only
    rw [if_neg h0]
    rfl

/-- C7 amended witness: a concrete failed run (returncode 1) on the
scenario file map still reaches the load path. -/
theorem c7_amended_auth_never_propagates_witness :
    ((⟨1, "kinit: Password incorrect"⟩ : KinitRun).returncode ≠ 0 →
      kinit ⟨1, "kinit: Password incorrect"⟩ "blaised" =
        .ok ["Authentication failed: " ++ "kinit: Password incorrect"]) ∧
    eos_load_root_file (some "blaised") ⟨1, "kinit: Password incorrect"⟩
      [("2018", [("data", [("MU", "f1.root")])])]
      ⟨some "k", some "DecayTree", some ["B_PT"], some [("common", "PT>500")]⟩
      "2018" "MU" "data" [] =
      .load (load_root_file [("2018", [("data", [("MU", "f1.root")])])]
        ⟨some "k", some "DecayTree", some ["B_PT"], some [("common", "PT>500")]⟩
        "2018" "MU" "data" []) ∧
    authenticate none ⟨1, "kinit: Password incorrect"⟩ =
      .error "User ID not specified in the configuration." :=
  c7_amended_auth_never_propagates "blaised" ⟨1, "kinit: Password incorrect"⟩
    [("2018", [("data", [("MU", "f1.root")])])]
    ⟨some "k", some "DecayTree", some ["B_PT"], some [("common", "PT>500")]⟩
    "2018" "MU" "data" [] (by decide)

theorem chunks_flatten {α : Type} (step : ℕ) (xs : List α) :
    (chunks step xs).flatten = xs := by
  induction xs using chunks.induct step with
  | case1 => simp [chunks]
  | case2 x t ih =>
    simp only [chunks, List.flatten_cons, ih]
    rw [List.cons_append, List.take_append_drop]

theorem flatten_map_filter {α : Type} (p : α → Bool) (L : List (List α)) :
    (L.map (List.filter p)).flatten = L.flatten.filter p := by
  induction L with
  | nil => rfl
  | cons l L ih =>
    simp only [List.map_cons, List.flatten_cons, List.filter_append, ih]

theorem chunks_cons_ne_nil {α : Type} (step : ℕ) (x : α) (t : List α) :
    chunks step (x :: t) ≠ [] := by
  simp only [chunks]
  exact List.cons_ne_nil _ _

/-- C5 counterexample: a batched pandas read that produces zero batches
(the entry stream is empty, so `uproot.iterate` yields nothing) makes
`pd.concat` raise `ValueError("No objects to concatenate")`; it does not
return an empty table of any kind. -/
theorem c5_counterexample_zero_batches :
    load_root "pd" 2 (fun _ : ℕ => true) none [] = .error "No objects to concatenate" ∧
    ∀ t : List ℕ, load_root "pd" 2 (fun _ : ℕ => true) none [] ≠ .ok t := by
  refine ⟨by simp [load_root, chunks, opTake], fun t h => ?_⟩
  rw [show load_root "pd" 2 (fun _ : ℕ => true) none [] = .error "No objects to concatenate"
    from by simp [load_root, chunks, opTake]] at h
  exact Except.noConfusion h

/-- C5 amended: zero batches — an empty entry stream — make the pandas
path of `load_root` raise the `pd.concat` `ValueError` instead of
returning an empty table; when at least one batch is produced the result
is the filtered row list, so a cut excluding every event yields an empty
table (`.ok`), not an error; and the tail of `load_root_file` logs the
warning on an empty result while still returning it, so the coordinate
counts as processed. -/
theorem c5_amended_empty_result_handling {α : Type} (step : ℕ) (cut : α → Bool)
    (max_entries : Option ℕ) (xs : List α) (year magpol data_type : String) :
    (opTake max_entries xs = [] →
      load_root "pd" step cut max_entries xs = .error "No objects to concatenate") ∧
    (opTake max_entries xs ≠ [] →
      load_root "pd" step cut max_entries xs = .ok ((opTake max_entries xs).filter cut)) ∧
    (∀ df : List α, df = [] →
      load_root_file_result year magpol data_type df =
        ([], some ("No data loaded for Year: " ++ year ++ ", Magpol: " ++ magpol
          ++ ", Data Type: " ++ data_type))) := by
  refine ⟨fun h => ?_, fun h => ?_, fun df h => ?_⟩
  · rw [load_root, if_pos rfl, h]
    simp [chunks]
  · rw [load_root, if_pos rfl]
    cases hop : opTake max_entries xs with
    | nil => exact absurd hop h
    | cons a t =>
      rw [if_neg (by simp [List.isEmpty_iff, chunks_cons_ne_nil])]
      rw [flatten_map_filter, chunks_flatten, ← hop]
  · subst h
    rfl

/-- C5 amended witness: empty stream errors; a cut excluding every event
on a nonempty stream returns the empty table; the empty result is warned
about and still returned. -/
theorem c5_amended_empty_result_handling_witness :
    load_root "pd" 2 (fun _ : ℕ => false) none ([] : List ℕ) =
      .error "No objects to concatenate" ∧
    load_root "pd" 2 (fun _ : ℕ => false) none [1, 2, 3] = .ok [] ∧
    load_root_file_result "2018" "MU" "data" ([] : List ℕ) =
      ([], some "No data loaded for Year: 2018, Magpol: MU, Data Type: data") := by
  refine ⟨(c5_amended_empty_result_handling 2 (fun _ : ℕ => false) none [] "2018" "MU"
      "data").1 rfl, ?_, ?_⟩
  · have h := (c5_amended_empty_result_handling 2 (fun _ : ℕ => false) none [1, 2, 3]
      "2018" "MU" "data").2.1 (by simp [opTake])
    simpa [opTake] using h
  · have h := (c5_amended_empty_result_handling 2 (fun _ : ℕ => false) none
      ([] : List ℕ) "2018" "MU" "data").2.2 [] rfl
    simpa using h

/-- C10 counterexample: on an empty source the batched pandas read raises
the `pd.concat` `ValueError` while the one-shot read returns the empty
table, so the batched result does not always equal the one-shot result. -/
theorem c10_counterexample_empty_source :
    load_root "pd" 1 (fun _ : ℕ => true) none [] = .error "No objects to concatenate" ∧
    simple_load (fun _ : ℕ => true) none ([] : List ℕ) = [] := by
  exact ⟨by simp [load_root, chunks, opTake], rfl⟩

/-- C10 amended: whenever the scanned entry stream is nonempty (at least
one batch is produced), reading in bounded-size batches and concatenating
equals the one-shot read with the same projection, cut and entry stop:
row-for-row the same rows in the same order — batching never reorders,
drops or duplicates events. On an empty stream the batched pandas path
raises instead. -/
theorem c10_amended_batching_refines_oneshot {α : Type} (step : ℕ) (cut : α → Bool)
    (max_entries : Option ℕ) (xs : List α) (h : opTake max_entries xs ≠ []) :
    load_root "pd" step cut max_entries xs = .ok (simple_load cut max_entries xs) := by
  rw [load_root, if_pos rfl, simple_load]
  cases hop : opTake max_entries xs with
  | nil => exact absurd hop h
  | cons a t =>
    rw [if_neg (by simp [List.isEmpty_iff, chunks_cons_ne_nil])]
    rw [flatten_map_filter, chunks_flatten, ← hop]

/-- C10 amended witness: a five-row source read in batches of two with an
odd-rows cut and an entry stop of four equals the one-shot read. -/
theorem c10_amended_batching_refines_oneshot_witness :
    load_root "pd" 2 (fun n : ℕ => n % 2 == 1) (some 4) [1, 2, 3, 4, 5] =
      .ok (simple_load (fun n : ℕ => n % 2 == 1) (some 4) [1, 2, 3, 4, 5]) ∧
    simple_load (fun n : ℕ => n % 2 == 1) (some 4) [1, 2, 3, 4, 5] = [1, 3] :=
  ⟨c10_amended_batching_refines_oneshot 2 (fun n : ℕ => n % 2 == 1) (some 4)
      [1, 2, 3, 4, 5] (by simp [opTake]), by simp [simple_load, opTake]⟩

theorem rat_floor_eq_int_floor (x : ℚ) : x.floor = ⌊x⌋ :=
  (Rat.floor_def' x).trans Rat.floor_def.symm

theorem ratFloor_natCast_div (a d : ℕ) :
    ((a : ℚ) / (d : ℚ)).floor = ((a / d : ℕ) : ℤ) := by
  rw [rat_floor_eq_int_floor]
  have h1 : (a : ℚ) / (d : ℚ) = ((a : ℤ) : ℚ) / ((d : ℕ) : ℚ) := by push_cast; ring
  rw [h1, Rat.floor_intCast_div_natCast]
  rfl

theorem ratFrac_natCast_div (a d : ℕ) (hd : 0 < d) :
    (a : ℚ) / d - ((a / d : ℕ) : ℚ) = ((a % d : ℕ) : ℚ) / d := by
  have hd0 : (d : ℚ) ≠ 0 := Nat.cast_ne_zero.mpr hd.ne'
  have hmod : (d : ℚ) * ((a / d : ℕ) : ℚ) + ((a % d : ℕ) : ℚ) = (a : ℚ) := by
    exact_mod_cast congrArg (Nat.cast (R := ℚ)) (Nat.div_add_mod a d)
  field_simp
  linarith

theorem pythonRound_natCast_div (a d : ℕ) (hd : 0 < d) :
    pythonRound ((a : ℚ) / (d : ℚ)) = halfEvenRoundNat a d := by
  have hdq : (0 : ℚ) < d := by exact_mod_cast hd
  have hfl := ratFloor_natCast_div a d
  have hfrac : (a : ℚ) / d - ((((a : ℚ) / (d : ℚ)).floor : ℤ) : ℚ) =
      ((a % d : ℕ) : ℚ) / d := by
    rw [hfl]
    push_cast
    exact_mod_cast ratFrac_natCast_div a d hd
  have hlt : ((a % d : ℕ) : ℚ) / d < 1/2 ↔ 2 * (a % d) < d := by
    rw [div_lt_div_iff₀ hdq (by norm_num : (0:ℚ) < 2), one_mul, mul_comm]
    exact_mod_cast Iff.rfl
  have hgt : 1/2 < ((a % d : ℕ) : ℚ) / d ↔ d < 2 * (a % d) := by
    rw [div_lt_div_iff₀ (by norm_num : (0:ℚ) < 2) hdq, one_mul, mul_comm]
    exact_mod_cast Iff.rfl
  have hpar : ((2:ℤ) ∣ ((a / d : ℕ) : ℤ)) ↔ 2 ∣ a / d := by exact_mod_cast Iff.rfl
  unfold pythonRound halfEvenRoundNat
  rw [hfrac, hfl]
  rcases lt_trichotomy (2 * (a % d)) d with h | h | h
  · rw [if_pos (hlt.mpr h), if_pos h]
  · rw [if_neg (by rw [hlt]; omega), if_neg (by omega : ¬(2 * (a % d) < d)),
      if_neg (by rw [hgt]; omega), if_neg (by omega : ¬(d < 2 * (a % d)))]
    by_cases hq : 2 ∣ a / d
    · rw [if_pos (hpar.mpr hq), if_pos hq]
    · rw [if_neg (fun c => hq (hpar.mp c)), if_neg hq]
  · rw [if_neg (by rw [hlt]; omega), if_neg (by omega : ¬(2 * (a % d) < d)),
      if_pos (hgt.mpr h), if_pos h]

theorem nits_eq_halfEven (tevs bevs : ℕ) (hb : 0 < bevs) :
    nits tevs bevs = halfEvenRoundNat (2 * tevs + bevs) (2 * bevs) := by
  have hb0 : (bevs : ℚ) ≠ 0 := Nat.cast_ne_zero.mpr hb.ne'
  have h : (tevs : ℚ) / bevs + 1/2 =
      ((2 * tevs + bevs : ℕ) : ℚ) / ((2 * bevs : ℕ) : ℚ) := by
    push_cast
    field_simp
    ring
  unfold nits
  rw [h]
  exact pythonRound_natCast_div (2 * tevs + bevs) (2 * bevs) (by omega)

/-- C6 counterexample: at total rows 2 and estimated batch rows 2 the code
computes `round(2/2 + 0.5) = round(1.5) = 2` (CPython rounds halves to
even), while the smallest `n` with `n * b ≥ t` is `1`: the estimate is not
`ceil(t / b)`. -/
theorem c6_counterexample_round_half_even :
    nits 2 2 = 2 ∧ 2 ≤ 1 * 2 ∧ (1 : ℤ) < 2 := by
  refine ⟨?_, by norm_num, by norm_num⟩
  rw [nits_eq_halfEven 2 2 (by norm_num)]
  decide

/-- C6 amended: the expected-iteration count equals `ceil(t / b)` (the
smallest `n` with `n * b ≥ t`, computed as `(t + b - 1) / b`) except when
`b` divides `t` with an odd quotient, where CPython's half-to-even
rounding makes it `t / b + 1`, one more than the ceiling. -/
theorem c6_amended_progress_estimate (t b : ℕ) (ht : 0 < t) (hb : 0 < b) :
    ((b ∣ t ∧ Odd (t / b)) → nits t b = ((t / b : ℕ) : ℤ) + 1) ∧
    (¬(b ∣ t ∧ Odd (t / b)) → nits t b = (((t + b - 1) / b : ℕ) : ℤ)) ∧
    (∀ n : ℕ, (t + b - 1) / b ≤ n ↔ t ≤ n * b) := by
  have hqr := Nat.div_add_mod t b
  have hrlt : t % b < b := Nat.mod_lt t hb
  have h2b : 0 < 2 * b := by omega
  have hmain : (t % b = 0 → (2 * t + b) / (2 * b) = t / b ∧ (2 * t + b) % (2 * b) = b) ∧
      (t % b ≠ 0 → halfEvenRoundNat (2 * t + b) (2 * b) = ((t / b : ℕ) : ℤ) + 1) := by
    constructor
    · intro hr0
      apply (Nat.div_mod_unique h2b).mpr
      refine ⟨?_, by omega⟩
      rw [show 2 * b * (t / b) = 2 * (b * (t / b)) from by ring]
      omega
    · intro hr1
      rcases lt_trichotomy (2 * (t % b)) b with hc | hc | hc
      · have hq : (2 * t + b) / (2 * b) = t / b ∧
            (2 * t + b) % (2 * b) = 2 * (t % b) + b := by
          apply (Nat.div_mod_unique h2b).mpr
          refine ⟨?_, by omega⟩
          rw [show 2 * b * (t / b) = 2 * (b * (t / b)) from by ring]
          omega
        unfold halfEvenRoundNat
        rw [hq.1, hq.2, if_neg (by omega), if_pos (by omega)]
      · have hq : (2 * t + b) / (2 * b) = t / b + 1 ∧ (2 * t + b) % (2 * b) = 0 := by
          apply (Nat.div_mod_unique h2b).mpr
          refine ⟨?_, by omega⟩
          rw [show 2 * b * (t / b + 1) = 2 * (b * (t / b)) + 2 * b from by ring]
          omega
        unfold halfEvenRoundNat
        rw [hq.1, hq.2, if_pos (by omega)]
        push_cast
        ring
      · have hq : (2 * t + b) / (2 * b) = t / b + 1 ∧
            (2 * t + b) % (2 * b) = 2 * (t % b) - b := by
          apply (Nat.div_mod_unique h2b).mpr
          refine ⟨?_, by omega⟩
          rw [show 2 * b * (t / b + 1) = 2 * (b * (t / b)) + 2 * b from by ring]
          omega
        unfold halfEvenRoundNat
        rw [hq.1, hq.2, if_pos (by omega)]
        push_cast
        ring
  refine ⟨?_, ?_, ?_⟩
  · rintro ⟨hdvd, hodd⟩
    have hr0 : t % b = 0 := Nat.dvd_iff_mod_eq_zero.mp hdvd
    have hq := hmain.1 hr0
    have hnot2 : ¬ 2 ∣ t / b := by
      rw [Nat.odd_iff] at hodd
      omega
    rw [nits_eq_halfEven t b hb]
    unfold halfEvenRoundNat
    rw [hq.1, hq.2, if_neg (by omega), if_neg (by omega), if_neg hnot2]
  · intro hno
    rcases Nat.eq_zero_or_pos (t % b) with hr0 | hrpos
    · have hdvd : b ∣ t := Nat.dvd_iff_mod_eq_zero.mpr hr0
      have heven : 2 ∣ t / b := by
        rcases Nat.even_or_odd (t / b) with he | ho
        · rcases he with ⟨k, hk⟩
          exact ⟨k, by omega⟩
        · exact absurd ⟨hdvd, ho⟩ hno
      have hq := hmain.1 hr0
      have hceil : (t + b - 1) / b = t / b := by
        have := (Nat.div_mod_unique (a := t + b - 1) (c := b - 1) (d := t / b) hb).mpr
          ⟨by omega, by omega⟩
        exact this.1
      rw [nits_eq_halfEven t b hb, hceil]
      unfold halfEvenRoundNat
      rw [hq.1, hq.2, if_neg (by omega), if_neg (by omega), if_pos heven]
    · have hceil : (t + b - 1) / b = t / b + 1 := by
        have := (Nat.div_mod_unique (a := t + b - 1) (c := t % b - 1)
          (d := t / b + 1) hb).mpr
          ⟨by rw [show b * (t / b + 1) = b * (t / b) + b from by ring]; omega, by omega⟩
        exact this.1
      rw [nits_eq_halfEven t b hb, hmain.2 (by omega), hceil]
      push_cast
      ring
  · intro n
    rw [Nat.div_le_iff_le_mul_add_pred hb, mul_comm b n]
    omega

/-- C6 amended witness: at 6 rows and batches of 2 (exact odd quotient 3)
the estimate is 4 while the ceiling is 3; the ceiling characterization is
also instantiated. -/
theorem c6_amended_progress_estimate_witness :
    ((2 ∣ 6 ∧ Odd (6 / 2)) → nits 6 2 = ((6 / 2 : ℕ) : ℤ) + 1) ∧
    (¬(2 ∣ 6 ∧ Odd (6 / 2)) → nits 6 2 = (((6 + 2 - 1) / 2 : ℕ) : ℤ)) ∧
    (∀ n : ℕ, (6 + 2 - 1) / 2 ≤ n ↔ 6 ≤ n * 2) :=
  c6_amended_progress_estimate 6 2 (by norm_num) (by norm_num)
